import Mathlib

/-!
Verification of the medical-ai-chatbot serverless functions.

The development shallowly embeds the two Wikipedia-backed chat handlers of
`netlifyfunctions/chat.js` (a Netlify-style handler and a Vercel-style handler)
and the two Groq proxy variants.  Remote HTTP calls are modelled as oracles:
a search oracle mapping a search term to either a thrown error or the
(optional) top result title, and an extract oracle mapping an article title to
the outcome of the extract fetch.  JavaScript strings are modelled as Lean
`String` (ASCII scope: `toLowerCase`, `trim`, `\s`, `\w` and `.length` are
modelled by their ASCII behaviour, which covers every constant appearing in
the source).  Thrown JavaScript exceptions are modelled with `Except JsError`;
`try`/`catch` blocks become explicit `match`es on the `Except` value.
-/

/-- A thrown JavaScript error, abstracted to its `message` string. -/
structure JsError where
  message : String
deriving DecidableEq

/-- Stand-in for a `TypeError` raised by dereferencing `undefined`
(the `message` text is irrelevant to the model). -/
def jsTypeError : JsError := ⟨"Cannot read properties of undefined"⟩

/-- Does `pre` occur as a prefix of `l`? (JS `String.prototype.startsWith` on char lists). -/
def startsWithList : List Char → List Char → Bool
  | [], _ => true
  | _ :: _, [] => false
  | a :: as, b :: bs => a = b && startsWithList as bs

/-- Does `needle` occur as a contiguous substring of `hay`?
Models JS `String.prototype.includes`. -/
def listHasSub (needle : List Char) : List Char → Bool
  | [] => startsWithList needle []
  | c :: cs => startsWithList needle (c :: cs) || listHasSub needle cs

/-- String-level substring containment (JS `hay.includes(needle)`). -/
def hasSubstring (hay needle : String) : Bool :=
  listHasSub needle.toList hay.toList

/-- ASCII lower-casing, modelling JS `toLowerCase` (per-character, length preserving). -/
def lowerStr (s : String) : String :=
  String.mk (s.toList.map Char.toLower)

/-- Strip leading and trailing whitespace from a char list (JS `trim`,
restricted to the ASCII whitespace of `Char.isWhitespace`). -/
def jsTrimList (l : List Char) : List Char :=
  ((l.dropWhile Char.isWhitespace).reverse.dropWhile Char.isWhitespace).reverse

/-- JS `String.prototype.trim` (ASCII whitespace). -/
def jsTrim (s : String) : String :=
  String.mk (jsTrimList s.toList)

/-- Split a char list at every newline character (JS `split('\n')`);
always returns at least one (possibly empty) segment. -/
def splitOnNlList : List Char → List (List Char)
  | [] => [[]]
  | c :: cs =>
      let r := splitOnNlList cs
      if c = '\n' then [] :: r
      else
        match r with
        | [] => [[c]]
        | seg :: rest => (c :: seg) :: rest

/-- JS `s.split('\n')`. -/
def splitOnNl (s : String) : List String :=
  (splitOnNlList s.toList).map String.mk

/-- JS `s.replace(/\n/g, '<br>')`. -/
def replaceNlList : List Char → List Char
  | [] => []
  | c :: cs =>
      if c = '\n' then '<' :: 'b' :: 'r' :: '>' :: replaceNlList cs
      else c :: replaceNlList cs

/-- JS global replacement of newlines by `<br>`. -/
def replaceNl (s : String) : String :=
  String.mk (replaceNlList s.toList)

/-- Strip one optional leading `+`/`-` sign. -/
def stripSign : List Char → List Char
  | c :: cs => if c = '+' ∨ c = '-' then cs else c :: cs
  | [] => []

/-- Decimal mantissa of a JS number literal: `123`, `123.`, `123.45` or `.45`. -/
def mantissaOk (cs : List Char) : Bool :=
  let intPart := cs.takeWhile Char.isDigit
  let rest := cs.drop intPart.length
  match rest with
  | [] => !intPart.isEmpty
  | '.' :: frac => (!intPart.isEmpty || !frac.isEmpty) && frac.all Char.isDigit
  | _ => false

/-- Decimal JS number syntax with optional sign and optional `e` exponent
(the input is already lower-cased, so only a lowercase `e` can occur). -/
def jsDecimalNumeric (cs : List Char) : Bool :=
  let mant := cs.takeWhile (fun c => c ≠ 'e')
  let rest := cs.drop mant.length
  match rest with
  | [] => mantissaOk (stripSign mant)
  | _ :: expPart =>
      let e := stripSign expPart
      mantissaOk (stripSign mant) && !e.isEmpty && e.all Char.isDigit

/-- Non-whitespace core of JS `Number(_)` string coercion on a lower-cased
string: hex / octal / binary literals or signed decimals.  (`Infinity` needs a
capital `I`, so it cannot match a lower-cased input and is omitted.) -/
def jsIsNumericCore (cs : List Char) : Bool :=
  match cs with
  | '0' :: 'x' :: hs => !hs.isEmpty && hs.all (fun c => c.isDigit || ('a' ≤ c && c ≤ 'f'))
  | '0' :: 'o' :: os => !os.isEmpty && os.all (fun c => '0' ≤ c && c ≤ '7')
  | '0' :: 'b' :: bs => !bs.isEmpty && bs.all (fun c => c = '0' || c = '1')
  | _ => jsDecimalNumeric cs

/-- Models `!isNaN(s)` for a lower-cased JS string `s`: `Number(s)` coerces the
string (whitespace-trimmed; empty coerces to `0`). -/
def jsIsNumeric (s : String) : Bool :=
  let t := jsTrimList s.toList
  t.isEmpty || jsIsNumericCore t

/-- Uppercase hexadecimal digit for a value below 16. -/
def hexDigitChar (n : Nat) : Char :=
  if n < 10 then Char.ofNat ('0'.toNat + n) else Char.ofNat ('A'.toNat + (n - 10))

/-- UTF-8 bytes of one character. -/
def utf8Bytes (c : Char) : List Nat :=
  let n := c.toNat
  if n < 0x80 then [n]
  else if n < 0x800 then [0xC0 + n / 0x40, 0x80 + n % 0x40]
  else if n < 0x10000 then
    [0xE0 + n / 0x1000, 0x80 + (n / 0x40) % 0x40, 0x80 + n % 0x40]
  else
    [0xF0 + n / 0x40000, 0x80 + (n / 0x1000) % 0x40, 0x80 + (n / 0x40) % 0x40,
     0x80 + n % 0x40]

/-- Characters `encodeURIComponent` leaves unescaped. -/
def uriUnreserved (c : Char) : Bool :=
  c.isAlphanum || ['-', '_', '.', '!', '~', '*', '\x27', '(', ')'].contains c

/-- JS `encodeURIComponent`: unreserved characters pass through, every other
character is replaced by the percent-encoding of its UTF-8 bytes. -/
def encodeURIComponent (s : String) : String :=
  String.mk (List.flatten (s.toList.map (fun c =>
    if uriUnreserved c then [c]
    else List.flatten ((utf8Bytes c).map (fun b =>
      ['%', hexDigitChar (b / 16), hexDigitChar (b % 16)])))))

-- ## Classifier and normalizer (chat.js, Netlify variant, lines 4-51)

/-- `NON_MEDICAL_KEYWORDS` from chat.js. -/
def NON_MEDICAL_KEYWORDS : List String :=
  ["queen", "king", "president", "country", "city", "village",
   "novel", "movie", "song", "album", "history", "art",
   "politics", "religion", "weather", "sports", "celebrity",
   "actor", "actress", "singer", "artist", "book", "car", "place"]

/-- The alternatives of the greeting regex
`/^(hi|hello|hey|greetings|hallo|what's up|how are you|how is it going)\b/i`. -/
def greetingOpeners : List String :=
  ["hi", "hello", "hey", "greetings", "hallo", "what\x27s up", "how are you",
   "how is it going"]

/-- JS regex word character (`\w` = `[A-Za-z0-9_]`). -/
def isWordChar (c : Char) : Bool :=
  c.isAlphanum || c = '_'

/-- Does opener `g` match at the start of `t` followed by a regex word
boundary?  Every opener ends in a word character, so the trailing `\b` demands
end-of-string or a non-word character after the opener. -/
def openerMatches (t g : String) : Bool :=
  startsWithList g.toList t.toList &&
    (match t.toList.drop g.toList.length with
     | [] => true
     | c :: _ => !isWordChar c)

/-- `isGreeting` from chat.js: tests the greeting regex against
`prompt.trim().toLowerCase()`. -/
def isGreeting (prompt : String) : Bool :=
  greetingOpeners.any (fun g => openerMatches (lowerStr (jsTrim prompt)) g)

/-- The alternatives of the filler regex
`/^(i have a|i feel|what is|tell me about|what are|the benefits of|i want to know about)\s+/i`,
in source order. -/
def fillerPhrases : List String :=
  ["i have a", "i feel", "what is", "tell me about", "what are",
   "the benefits of", "i want to know about"]

/-- Does phrase `p` (lowercase) match case-insensitively at the start of `t`,
followed by at least one whitespace character (`\s+` is mandatory)? -/
def fillerMatches (t p : String) : Bool :=
  startsWithList p.toList (lowerStr t).toList &&
    (match t.toList.drop p.toList.length with
     | [] => false
     | c :: _ => c.isWhitespace)

/-- Remainder of `t` after removing the matched phrase `p` and the maximal
(greedy `\s+`) whitespace run that follows it. -/
def fillerRest (t p : String) : String :=
  String.mk ((t.toList.drop p.toList.length).dropWhile Char.isWhitespace)

/-- The first filler phrase (in regex alternation order) matching at the start
of `t`, together with the remainder after the replacement by `''`. -/
def matchedFiller (t : String) : Option (String × String) :=
  fillerPhrases.findSome? (fun p =>
    if fillerMatches t p then some (p, fillerRest t p) else none)

/-- `cleanMedicalPrompt` from chat.js: trim, strip the first matching filler
phrase (if any), trim again. -/
def cleanMedicalPrompt (prompt : String) : String :=
  let cleaned := jsTrim prompt
  jsTrim (match matchedFiller cleaned with
          | some pr => pr.2
          | none => cleaned)

/-- `isLikelyNonMedical` from chat.js: short or numeric terms always pass;
otherwise reject when any non-medical keyword occurs as a substring. -/
def isLikelyNonMedical (searchTerm : String) : Bool :=
  let lowerTerm := lowerStr searchTerm
  if lowerTerm.length < 3 || jsIsNumeric lowerTerm then false
  else NON_MEDICAL_KEYWORDS.any (fun keyword => hasSubstring lowerTerm keyword)

-- ## Remote world model

/-- A remote HTTP call made during a request, recorded for the call log. -/
inductive RemoteCall where
  | search (term : String)
  | extract (title : String)
deriving DecidableEq

/-- Is this call a search-API call? -/
def RemoteCall.isSearch : RemoteCall → Bool
  | .search _ => true
  | .extract _ => false

/-- Outcome of one search-API round trip: either the `fetch`/`json` stage
throws, or the navigation `searchResult.query?.search?.[0]?.title` yields an
optional title (full optional chaining, so this stage never throws). -/
def SearchOracle : Type := String → Except JsError (Option String)

/-- Outcome of one extract-API round trip. -/
inductive ExtractOutcome where
  /-- the `fetch` or `.json()` stage threw -/
  | netFail
  /-- `extractResult.query?.pages` is `undefined`, so `Object.keys(pages)` throws -/
  | badShape
  /-- navigation succeeded; the page `extract` field, `none` when absent -/
  | ok (extract : Option String)
deriving DecidableEq

/-- Oracle for the extract endpoint. -/
def ExtractOracle : Type := String → ExtractOutcome

/-- JS `v || null` applied to an optional title: an empty-string title is
falsy and collapses to `null`. -/
def jsOrNull : Option String → Option String
  | some "" => none
  | v => v

-- ## Netlify Wikipedia variant (chat.js lines 1-182)

namespace Netlify

/-- `searchWikipedia` (Netlify variant): any thrown error is caught and
becomes `null`; the title is `searchResult.query?.search?.[0]?.title || null`. -/
def searchWikipedia (so : SearchOracle) (searchTerm : String) : Option String :=
  match so searchTerm with
  | .error _ => none
  | .ok v => jsOrNull v

/-- Is this segment kept by `.filter(p => p.trim() !== '')`? -/
def segNonEmpty (p : String) : Bool :=
  !(jsTrim p == "")

/-- `sourceUrl` built in `fetchWikipediaSummary`. -/
def sourceUrl (title : String) : String :=
  "https://en.wikipedia.org/wiki/" ++ encodeURIComponent title

/-- The `htmlContent` string assembled by `fetchWikipediaSummary`. -/
def htmlContent (title cleanedExtract : String) : String :=
  "<p class=\"font-bold text-sm\">Wikipedia Result for \"" ++ title ++ "\"</p>" ++
  ("<p class=\"mt-2\">" ++ replaceNl cleanedExtract ++ "</p>") ++
  ("<p class=\"mt-3 text-xs italic text-blue-700\">Source: <a href=\"" ++ sourceUrl title ++
   "\" target=\"_blank\" class=\"underline hover:text-blue-900\">Read the full article on Wikipedia</a></p>")

/-- Body of the `try` block of `fetchWikipediaSummary` (Netlify variant).
When the extract is non-empty but every newline-delimited segment is
whitespace, the `[0]` selection is `undefined` and the subsequent
`cleanedExtract.replace(...)` throws a `TypeError`. -/
def fetchSummaryTryBody (eo : ExtractOracle) (title : String) :
    Except JsError (Option String) :=
  match eo title with
  | .netFail => Except.error ⟨"fetch failed"⟩
  | .badShape => Except.error jsTypeError
  | .ok none => Except.ok none
  | .ok (some extract) =>
      if extract = "" then Except.ok none
      else
        match ((splitOnNl extract).filter segNonEmpty).head? with
        | none => Except.error jsTypeError
        | some cleanedExtract => Except.ok (some (htmlContent title cleanedExtract))

/-- `fetchWikipediaSummary` (Netlify variant): the whole body sits in a
`try` whose `catch` returns `null`. -/
def fetchWikipediaSummary (eo : ExtractOracle) (title : String) : Option String :=
  match fetchSummaryTryBody eo title with
  | .ok r => r
  | .error _ => none

/-- Canned greeting response text. -/
def greetingMessage : String :=
  "Hello there! I\x27m here to provide Wikipedia information on **health and medical topics** only. How can I help you find a medical fact today?"

/-- Out-of-scope rejection text (interpolates the cleaned query). -/
def outOfScopeMessage (cleanedQuery : String) : String :=
  "I apologize, but my function is strictly limited to **health and medical topics**. I cannot search for information about \"" ++
    cleanedQuery ++ "\". Please try a health-related question instead."

/-- No-article disclaimer text (interpolates the raw prompt). -/
def notFoundMessage (prompt : String) : String :=
  "Disclaimer: I am a fact-finding assistant. I could not find a relevant Wikipedia article for **\"" ++
    prompt ++ "\"**. Please try a more specific health term."

/-- Successful summary text (disclaimer prepended to the HTML content). -/
def successMessage (summaryHtml : String) : String :=
  "Disclaimer: I am a fact-finding assistant, not a doctor. " ++ summaryHtml

/-- Extraction-failure text (interpolates the found title). -/
def couldNotExtractMessage (title : String) : String :=
  "Disclaimer: I am a fact-finding assistant. Found article \"" ++ title ++
    "\" but could not extract a summary."

/-- JSON body of a Netlify response, by shape. -/
inductive Body where
  /-- `{ message: m }` -/
  | message (m : String)
  /-- `{ text: t }` -/
  | text (t : String)
  /-- `{ message: m, error: e }` from the 500 catch-all -/
  | internalErr (m e : String)
deriving DecidableEq

/-- A Netlify function response. -/
structure Response where
  statusCode : Nat
  body : Body
deriving DecidableEq

/-- `exports.handler` (Netlify variant).  The parsed request body is
`Except.error` when `JSON.parse(event.body)` throws (handled by the outer
catch-all), otherwise the optional `prompt` field.  The second component is
the log of remote calls made while handling the request. -/
def handler (so : SearchOracle) (eo : ExtractOracle) (httpMethod : String)
    (parsedBody : Except JsError (Option String)) : Response × List RemoteCall :=
  if httpMethod ≠ "POST" then (⟨405, .message "Method Not Allowed"⟩, [])
  else
    match parsedBody with
    | .error e =>
        (⟨500, .internalErr "Internal Server Error during Wikipedia search." e.message⟩, [])
    | .ok none =>
        (⟨400, .message "Missing required \x27prompt\x27 in the request body."⟩, [])
    | .ok (some prompt) =>
        if prompt = "" then
          (⟨400, .message "Missing required \x27prompt\x27 in the request body."⟩, [])
        else if isGreeting prompt then (⟨200, .text greetingMessage⟩, [])
        else
          let cleanedQuery := cleanMedicalPrompt prompt
          if isLikelyNonMedical cleanedQuery then
            (⟨200, .text (outOfScopeMessage cleanedQuery)⟩, [])
          else
            match searchWikipedia so cleanedQuery with
            | none => (⟨200, .text (notFoundMessage prompt)⟩, [.search cleanedQuery])
            | some title =>
                if lowerStr title = "wikipedia" then
                  (⟨200, .text (notFoundMessage prompt)⟩, [.search cleanedQuery])
                else
                  match fetchWikipediaSummary eo title with
                  | some summaryHtml =>
                      (⟨200, .text (successMessage summaryHtml)⟩,
                       [.search cleanedQuery, .extract title])
                  | none =>
                      (⟨200, .text (couldNotExtractMessage title)⟩,
                       [.search cleanedQuery, .extract title])

end Netlify

-- ## Vercel Wikipedia variant (chat.js lines 183-333)

namespace Vercel

/-- `searchWikipedia` (Vercel variant): a thrown fetch/parse error is caught
and re-thrown as `Error("Search failed due to network issue.")`. -/
def searchWikipedia (so : SearchOracle) (searchTerm : String) :
    Except JsError (Option String) :=
  match so searchTerm with
  | .error _ => Except.error ⟨"Search failed due to network issue."⟩
  | .ok v => Except.ok (jsOrNull v)

/-- The internal result of `fetchWikipediaSummary` (Vercel variant). -/
inductive FetchResult where
  /-- `{ error: msg }` -/
  | err (msg : String)
  /-- `{ title, summary, sourceUrl }` -/
  | success (title summary sourceUrl : String)
deriving DecidableEq

/-- Fixed replacement text for disambiguation pages. -/
def disambigNotice : String :=
  "The topic is ambiguous, but here is the primary medical summary:"

/-- The citation URL template. -/
def sourceUrl (title : String) : String :=
  "https://en.wikipedia.org/wiki/" ++ encodeURIComponent title

/-- Steps 2-3 of `fetchWikipediaSummary` (Vercel variant), after a title has
been resolved: fetch the extract (network failure is caught and turned into an
error result, but a malformed payload shape throws out of the function), take
the first newline-delimited segment, and special-case the disambiguation
marker. -/
def summarizePart (eo : ExtractOracle) (title : String) :
    Except JsError FetchResult :=
  match eo title with
  | .netFail => Except.ok (.err "Extraction failed due to network issue.")
  | .badShape => Except.error jsTypeError
  | .ok none => Except.ok (.err "Could not extract summary.")
  | .ok (some extract) =>
      if extract = "" then Except.ok (.err "Could not extract summary.")
      else
        let cleanedExtract0 := (splitOnNl extract).headD ""
        let cleanedExtract :=
          if hasSubstring cleanedExtract0 "may refer to:" then disambigNotice
          else cleanedExtract0
        Except.ok (.success title cleanedExtract (sourceUrl title))

/-- `fetchWikipediaSummary` (Vercel variant): primary search, then — only when
the primary yields no title — one fallback search with the augmented topic,
then the extract fetch.  An uncaught throw is an `Except.error`; the second
component is the log of remote calls. -/
def fetchWikipediaSummary (so : SearchOracle) (eo : ExtractOracle)
    (topic : String) : Except JsError FetchResult × List RemoteCall :=
  match searchWikipedia so topic with
  | .error e => (Except.ok (.err e.message), [.search topic])
  | .ok (some title) => (summarizePart eo title, [.search topic, .extract title])
  | .ok none =>
      let augmentedTopic := topic ++ " medical condition OR human disease"
      match searchWikipedia so augmentedTopic with
      | .error e =>
          (Except.ok (.err e.message), [.search topic, .search augmentedTopic])
      | .ok none =>
          (Except.ok (.err "No matching Wikipedia article found."),
           [.search topic, .search augmentedTopic])
      | .ok (some title) =>
          (summarizePart eo title,
           [.search topic, .search augmentedTopic, .extract title])

/-- JSON body of a Vercel response, by shape. -/
inductive Body where
  /-- `res.status(..).end()` with empty body -/
  | empty
  /-- `{ message: m }` -/
  | message (m : String)
  /-- `{ error: e }` -/
  | errorField (e : String)
  /-- `{ title, summary, sourceUrl }` -/
  | result (title summary sourceUrl : String)
deriving DecidableEq

/-- A Vercel response: status plus JSON body. -/
structure Response where
  status : Nat
  body : Body
deriving DecidableEq

/-- `module.exports` (Vercel variant).  `promptField` is the `prompt` field of
the request body (`none` when absent). -/
def handler (so : SearchOracle) (eo : ExtractOracle) (method : String)
    (promptField : Option String) : Response × List RemoteCall :=
  if method = "OPTIONS" then (⟨200, .empty⟩, [])
  else if method ≠ "POST" then (⟨405, .message "Method Not Allowed"⟩, [])
  else
    match promptField with
    | none => (⟨400, .message "Missing required field: prompt"⟩, [])
    | some prompt =>
        if prompt = "" then (⟨400, .message "Missing required field: prompt"⟩, [])
        else
          match fetchWikipediaSummary so eo prompt with
          | (.error _, calls) =>
              (⟨500, .message "Internal server error processing Wikipedia request."⟩, calls)
          | (.ok (.err e), calls) => (⟨200, .errorField e⟩, calls)
          | (.ok (.success t s u), calls) => (⟨200, .result t s u⟩, calls)

end Vercel

-- ## Groq proxy variants (secure backend proxy files)

/-- The process environment, restricted to the one variable the proxies read. -/
structure ProcessEnv where
  GROQ_API_KEY : Option String
deriving DecidableEq

/-- JS template-literal rendering of a possibly-`undefined` string. -/
def jsTemplateStr : Option String → String
  | some s => s
  | none => "undefined"

namespace GroqVercel

/-- `const API_KEY = process.env.GROQ_API_KEY;` (Vercel Groq variant). -/
def API_KEY (env : ProcessEnv) : Option String :=
  env.GROQ_API_KEY

/-- The `Authorization` header of the outbound completion call:
`` `Bearer ${API_KEY}` ``. -/
def authorizationHeader (env : ProcessEnv) : String :=
  "Bearer " ++ jsTemplateStr (API_KEY env)

end GroqVercel

namespace GroqNetlify

/-- `const API_KEY = "gsk_...";` (Netlify Groq variant) — a hard-coded string
literal, not a read of the process environment. -/
def API_KEY : String :=
  "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"

/-- The `Authorization` header of the outbound completion call:
`` `Bearer ${API_KEY}` ``. -/
def authorizationHeader : String :=
  "Bearer " ++ API_KEY

end GroqNetlify

-- ## Claim-wording predicate and concrete oracle stubs

/-- Modelled from the claim wording of C6: the trimmed prompt matches,
case-insensitively at the start of the string, one of the fixed greeting
openers (plain prefix match, with no word-boundary requirement).  To be
compared with the source predicate `isGreeting`. -/
def specGreetingMatch (prompt : String) : Bool :=
  greetingOpeners.any (fun g => startsWithList g.toList (lowerStr (jsTrim prompt)).toList)

/-- Search oracle whose fetch always succeeds with no result. -/
def soNone : SearchOracle := fun _ => Except.ok none

/-- Search oracle whose fetch always throws. -/
def soFail : SearchOracle := fun _ => Except.error ⟨"fetch failed"⟩

/-- Search oracle always returning the title `Fever`. -/
def soFever : SearchOracle := fun _ => Except.ok (some "Fever")

/-- Search oracle always returning the title `Paracetamol`. -/
def soPara : SearchOracle := fun _ => Except.ok (some "Paracetamol")

/-- Extract oracle whose page has no extract. -/
def eoNone : ExtractOracle := fun _ => ExtractOutcome.ok none

/-- Extract oracle returning a two-line extract about fever. -/
def eoFever : ExtractOracle :=
  fun _ => ExtractOutcome.ok (some "Fever is a medical symptom.\nMore detail.")

/-- Extract oracle returning a non-empty extract whose newline-delimited
segments are all whitespace. -/
def eoWs : ExtractOracle := fun _ => ExtractOutcome.ok (some " \n \t ")

/-- Extract oracle returning a disambiguation-page extract. -/
def eoDisambig : ExtractOracle :=
  fun _ => ExtractOutcome.ok (some "Fever may refer to:\nFever (symptom)\nOther uses")

/-- Search oracle always returning the title `Wikipedia` (the root page). -/
def soWiki : SearchOracle := fun _ => Except.ok (some "Wikipedia")

/-- Extract oracle whose payload has a malformed shape, making the page
navigation throw. -/
def eoBad : ExtractOracle := fun _ => ExtractOutcome.badShape

/-- A process environment carrying a distinct secret, to separate the two
Groq variants. -/
def env0 : ProcessEnv := ⟨some "ENV-SECRET-TOKEN"⟩

deriving instance DecidableEq for Except

set_option maxRecDepth 16384

-- ## Resolved-title summaries used in invariant statements

/-- The article title the Vercel search phase resolves, if any: the primary
result, or else the result of the single augmented fallback search. -/
def vercelResolvedTitle (so : SearchOracle) (topic : String) : Option String :=
  match Vercel.searchWikipedia so topic with
  | .error _ => none
  | .ok (some t) => some t
  | .ok none =>
      match Vercel.searchWikipedia so (topic ++ " medical condition OR human disease") with
      | .ok (some t) => some t
      | _ => none

/-- The article title the Netlify pipeline accepts, if any: the single search
result, unless it is the `wikipedia` root page. -/
def netlifyResolvedTitle (so : SearchOracle) (term : String) : Option String :=
  match Netlify.searchWikipedia so term with
  | none => none
  | some t => if lowerStr t = "wikipedia" then none else some t

-- ## General lemmas

theorem dropWhile_length_le (p : Char → Bool) (l : List Char) :
    (l.dropWhile p).length ≤ l.length := by
  induction l with
  | nil => simp
  | cons c cs ih =>
      by_cases h : p c
      · simp only [List.dropWhile_cons, h, if_true]
        exact Nat.le_succ_of_le ih
      · simp [List.dropWhile_cons, h]

theorem dropWhile_dropWhile_same (p : Char → Bool) (l : List Char) :
    (l.dropWhile p).dropWhile p = l.dropWhile p := by
  induction l with
  | nil => rfl
  | cons c cs ih =>
      by_cases h : p c
      · simp [List.dropWhile_cons, h, ih]
      · simp [List.dropWhile_cons, h]

theorem dropWhile_eq_self_of_prefix (p : Char → Bool) {A B : List Char}
    (hA : A.dropWhile p = A) (hpre : B <+: A) : B.dropWhile p = B := by
  cases B with
  | nil => rfl
  | cons b bs =>
      obtain ⟨t, ht⟩ := hpre
      have hpb : p b = false := by
        cases hpbv : p b with
        | false => rfl
        | true =>
            rw [← ht, List.cons_append, List.dropWhile_cons] at hA
            simp only [hpbv, if_true] at hA
            have h2 := dropWhile_length_le p (bs ++ t)
            have h1 := congrArg List.length hA
            simp only [List.length_append, List.length_cons] at h1 h2
            omega
      simp [List.dropWhile_cons, hpb]

theorem jsTrimList_idem (l : List Char) : jsTrimList (jsTrimList l) = jsTrimList l := by
  have hA : (l.dropWhile Char.isWhitespace).dropWhile Char.isWhitespace
      = l.dropWhile Char.isWhitespace := dropWhile_dropWhile_same _ _
  have hpre : jsTrimList l <+: l.dropWhile Char.isWhitespace := by
    rw [← List.reverse_suffix]
    show ((((l.dropWhile Char.isWhitespace).reverse.dropWhile Char.isWhitespace)).reverse).reverse
        <:+ (l.dropWhile Char.isWhitespace).reverse
    rw [List.reverse_reverse]
    exact List.dropWhile_suffix _
  have hB : (jsTrimList l).dropWhile Char.isWhitespace = jsTrimList l :=
    dropWhile_eq_self_of_prefix _ hA hpre
  show (((jsTrimList l).dropWhile Char.isWhitespace).reverse.dropWhile Char.isWhitespace).reverse
      = jsTrimList l
  rw [hB]
  rw [show (jsTrimList l).reverse
      = (l.dropWhile Char.isWhitespace).reverse.dropWhile Char.isWhitespace from
    List.reverse_reverse _]
  rw [dropWhile_dropWhile_same]
  rfl

theorem jsTrim_idem (s : String) : jsTrim (jsTrim s) = jsTrim s :=
  congrArg String.mk (jsTrimList_idem s.toList)

theorem lowerStr_length (s : String) : (lowerStr s).length = s.length := by
  show (s.toList.map Char.toLower).length = s.length
  rw [List.length_map]
  rfl

theorem strData_append (s t : String) : (s ++ t).data = s.data ++ t.data := by
  cases s; cases t; rfl

/-- Two strings differing at some index are different. -/
theorem ne_of_data_getElem {s t : String} (i : Nat)
    (hne : s.data[i]? ≠ t.data[i]?) : s ≠ t :=
  fun he => hne (by rw [he])


-- ## Claim C5 — normalizer strips at most one filler phrase

/-- Claim C5: `cleanMedicalPrompt` strips at most one leading filler phrase
(the first regex-alternation match, case-insensitive, followed by mandatory
whitespace), trims the remainder, and returns the trimmed input unchanged when
no pattern matches; a second matching phrase in the remainder is never
stripped (the result is exactly the trimmed remainder after the single
replacement). -/
theorem claim5_normalizer_single_strip (prompt p r : String) :
    (matchedFiller (jsTrim prompt) = none → cleanMedicalPrompt prompt = jsTrim prompt) ∧
    (matchedFiller (jsTrim prompt) = some (p, r) → cleanMedicalPrompt prompt = jsTrim r) := by
  have hdef : cleanMedicalPrompt prompt =
      jsTrim (match matchedFiller (jsTrim prompt) with
              | some pr => pr.2
              | none => jsTrim prompt) := rfl
  constructor
  · intro h
    rw [hdef, h]
    exact jsTrim_idem prompt
  · intro h
    rw [hdef, h]

/-- Witness for C5: the input `"  What is   tell me about flu  "` strips only
the first phrase `what is` — the remainder still starts with the filler
phrase `tell me about`, which is not stripped — and an input matching no
pattern is returned trimmed and otherwise unchanged. -/
theorem claim5_normalizer_single_strip_witness :
    cleanMedicalPrompt "  What is   tell me about flu  " = jsTrim "tell me about flu" ∧
    cleanMedicalPrompt "fever symptoms " = jsTrim "fever symptoms " :=
  ⟨(claim5_normalizer_single_strip "  What is   tell me about flu  " "what is"
      "tell me about flu").2 (by decide),
   (claim5_normalizer_single_strip "fever symptoms " "x" "y").1 (by decide)⟩

-- ## Claim C1 — out-of-scope classifier characterization

theorem isLikelyNonMedical_iff (term : String) :
    isLikelyNonMedical term = true ↔
      3 ≤ term.length ∧ jsIsNumeric (lowerStr term) = false ∧
        NON_MEDICAL_KEYWORDS.any (fun k => hasSubstring (lowerStr term) k) = true := by
  unfold isLikelyNonMedical
  by_cases hc : (decide ((lowerStr term).length < 3) || jsIsNumeric (lowerStr term)) = true
  · rw [if_pos hc]
    simp only [Bool.or_eq_true, decide_eq_true_eq] at hc
    constructor
    · intro h; cases h
    · rintro ⟨h1, h2, _⟩
      rw [lowerStr_length] at hc
      rcases hc with hc | hc
      · omega
      · rw [h2] at hc; cases hc
  · rw [if_neg hc]
    simp only [Bool.or_eq_true, decide_eq_true_eq, not_or] at hc
    obtain ⟨hc1, hc2⟩ := hc
    rw [lowerStr_length] at hc1
    constructor
    · intro h
      refine ⟨by omega, ?_, h⟩
      cases hv : jsIsNumeric (lowerStr term)
      · rfl
      · exact absurd hv hc2
    · rintro ⟨_, _, h3⟩
      exact h3

/-- Claim C1: for every normalized term the out-of-scope classifier rejects
exactly when the term has length at least 3, is not numeric (in the JS
`isNaN` sense), and contains some non-medical keyword as a substring of its
lower-cased form; every short or numeric term passes regardless of content;
and on rejection the handler returns the out-of-scope message having made no
remote call. -/
theorem claim1_out_of_scope_classifier (so : SearchOracle) (eo : ExtractOracle)
    (prompt : String) (hp : prompt ≠ "") (hg : isGreeting prompt = false) :
    (∀ term : String,
        (isLikelyNonMedical term = true ↔
          3 ≤ term.length ∧ jsIsNumeric (lowerStr term) = false ∧
            NON_MEDICAL_KEYWORDS.any (fun k => hasSubstring (lowerStr term) k) = true) ∧
        (term.length < 3 ∨ jsIsNumeric (lowerStr term) = true →
          isLikelyNonMedical term = false)) ∧
    (isLikelyNonMedical (cleanMedicalPrompt prompt) = true →
      Netlify.handler so eo "POST" (Except.ok (some prompt)) =
        (⟨200, Netlify.Body.text (Netlify.outOfScopeMessage (cleanMedicalPrompt prompt))⟩, [])) := by
  constructor
  · intro term
    refine ⟨isLikelyNonMedical_iff term, ?_⟩
    intro h
    cases hv : isLikelyNonMedical term
    · rfl
    · exfalso
      obtain ⟨h1, h2, _⟩ := (isLikelyNonMedical_iff term).mp hv
      rcases h with h | h
      · omega
      · rw [h] at h2; cases h2
  · intro hrej
    simp only [Netlify.handler]
    simp [hp, hg, hrej]

/-- Witness for C1: the prompt `Tell me about Queen Victoria` normalizes to
`Queen Victoria`, which is rejected, and the handler answers with the
out-of-scope message and an empty remote-call log. -/
theorem claim1_out_of_scope_classifier_witness :
    isLikelyNonMedical (cleanMedicalPrompt "Tell me about Queen Victoria") = true ∧
    Netlify.handler soNone eoNone "POST" (Except.ok (some "Tell me about Queen Victoria")) =
      (⟨200, Netlify.Body.text
          (Netlify.outOfScopeMessage (cleanMedicalPrompt "Tell me about Queen Victoria"))⟩, []) :=
  ⟨by decide,
   (claim1_out_of_scope_classifier soNone eoNone "Tell me about Queen Victoria"
      (by decide) (by decide)).2 (by decide)⟩

-- ## Claim C6 — greeting short-circuit

/-- Counterexample for C6 as stated: the trimmed prompt `Hives` matches the
opener `hi` case-insensitively at the start of the string, yet the pipeline
does not return the canned greeting — it performs a remote search call — because
the greeting regex additionally requires a word boundary after the opener. -/
theorem claim6_greeting_counterexample :
    specGreetingMatch "Hives" = true ∧
    isGreeting "Hives" = false ∧
    (Netlify.handler soNone eoNone "POST" (Except.ok (some "Hives"))).2 =
      [RemoteCall.search "Hives"] ∧
    (Netlify.handler soNone eoNone "POST" (Except.ok (some "Hives"))).1 ≠
      ⟨200, Netlify.Body.text Netlify.greetingMessage⟩ := by
  refine ⟨by decide, by decide, by decide, by decide⟩

/-- Claim C6 (amended): for every prompt whose trimmed form matches,
case-insensitively at the start of the string, one of the fixed greeting
openers followed by a regex word boundary (end of string or a non-word
character) — i.e. for every prompt on which `isGreeting` holds — the
pipeline returns the fixed canned greeting message and performs no remote
call. -/
theorem claim6_greeting_short_circuit (so : SearchOracle) (eo : ExtractOracle)
    (prompt : String) (hp : prompt ≠ "") (hg : isGreeting prompt = true) :
    Netlify.handler so eo "POST" (Except.ok (some prompt)) =
      (⟨200, Netlify.Body.text Netlify.greetingMessage⟩, []) := by
  simp only [Netlify.handler]
  simp [hp, hg]

/-- Witness for C6 (amended): the prompt `hello doctor` is a greeting and the
handler returns the canned message with an empty remote-call log. -/
theorem claim6_greeting_short_circuit_witness :
    Netlify.handler soFail eoNone "POST" (Except.ok (some "hello doctor")) =
      (⟨200, Netlify.Body.text Netlify.greetingMessage⟩, []) :=
  claim6_greeting_short_circuit soFail eoNone "hello doctor" (by decide) (by decide)

-- ## Claim C2 — fallback search strategy

/-- Counterexample for C2 as stated: in the Netlify variant the primary search
returns no title for the candidate term `xyzzyunknown`, yet no fallback search
with the augmented term is performed — the request makes exactly the one
primary search call and declares the not-found outcome immediately. -/
theorem claim2_fallback_counterexample :
    Netlify.handler soNone eoNone "POST" (Except.ok (some "xyzzyunknown")) =
      (⟨200, Netlify.Body.text (Netlify.notFoundMessage "xyzzyunknown")⟩,
       [RemoteCall.search "xyzzyunknown"]) ∧
    RemoteCall.search ("xyzzyunknown" ++ " medical condition OR human disease") ∉
      [RemoteCall.search "xyzzyunknown"] := by
  refine ⟨by decide, by decide⟩

/-- Claim C2 (amended): in the Vercel variant, if the primary search returns a
title then no fallback search is made; if it returns no title then exactly one
fallback search with the term concatenated with the fixed suffix is performed,
and the `No matching Wikipedia article found.` outcome is declared exactly
when that fallback also returns empty.  The Netlify variant has no fallback:
it declares not-found directly after its single search (see the
counterexample). -/
theorem claim2_vercel_fallback_once (so : SearchOracle) (eo : ExtractOracle)
    (topic t : String) :
    (Vercel.searchWikipedia so topic = Except.ok (some t) →
      (Vercel.fetchWikipediaSummary so eo topic).2 =
        [RemoteCall.search topic, RemoteCall.extract t]) ∧
    (Vercel.searchWikipedia so topic = Except.ok none →
      ((Vercel.fetchWikipediaSummary so eo topic).2.filter RemoteCall.isSearch =
        [RemoteCall.search topic,
         RemoteCall.search (topic ++ " medical condition OR human disease")]) ∧
      ((Vercel.fetchWikipediaSummary so eo topic).1 =
          Except.ok (Vercel.FetchResult.err "No matching Wikipedia article found.") ↔
        Vercel.searchWikipedia so (topic ++ " medical condition OR human disease") =
          Except.ok none)) := by
  constructor
  · intro h
    simp [Vercel.fetchWikipediaSummary, h]
  · intro h
    rcases h2 : Vercel.searchWikipedia so (topic ++ " medical condition OR human disease") with
      e | v
    · have hm : e.message = "Search failed due to network issue." := by
        unfold Vercel.searchWikipedia at h2
        rcases hso : so (topic ++ " medical condition OR human disease") with e0 | v0
        · rw [hso] at h2
          simp only [Except.error.injEq] at h2
          rw [← h2]
        · rw [hso] at h2
          cases h2
      refine ⟨by simp [Vercel.fetchWikipediaSummary, h, h2, RemoteCall.isSearch], ?_, ?_⟩
      · intro hh
        simp [Vercel.fetchWikipediaSummary, h, h2, hm] at hh
      · intro hh
        simp at hh
    · cases v with
      | none =>
          exact ⟨by simp [Vercel.fetchWikipediaSummary, h, h2, RemoteCall.isSearch],
                 fun _ => rfl,
                 fun _ => by simp [Vercel.fetchWikipediaSummary, h, h2]⟩
      | some title =>
          refine ⟨by simp [Vercel.fetchWikipediaSummary, h, h2, RemoteCall.isSearch], ?_, ?_⟩
          · intro hh
            exfalso
            simp only [Vercel.fetchWikipediaSummary, h, h2] at hh
            unfold Vercel.summarizePart at hh
            rcases heo : eo title with _ | _ | ex
            · simp [heo] at hh
            · simp [heo] at hh
            · rcases ex with _ | extract
              · simp [heo] at hh
              · by_cases hx : extract = ""
                · simp [heo, hx] at hh
                · simp [heo, hx] at hh
          · intro hh
            simp at hh

/-- Witness for C2 (amended): with a backend that finds `Fever` at the primary
step, no fallback search happens; with a backend that finds nothing, the
fallback is performed exactly once and not-found is declared. -/
theorem claim2_vercel_fallback_once_witness :
    ((Vercel.fetchWikipediaSummary soFever eoFever "fever").2 =
      [RemoteCall.search "fever", RemoteCall.extract "Fever"]) ∧
    (((Vercel.fetchWikipediaSummary soNone eoNone "xyzzy").2.filter RemoteCall.isSearch =
      [RemoteCall.search "xyzzy",
       RemoteCall.search ("xyzzy" ++ " medical condition OR human disease")]) ∧
     ((Vercel.fetchWikipediaSummary soNone eoNone "xyzzy").1 =
        Except.ok (Vercel.FetchResult.err "No matching Wikipedia article found.") ↔
      Vercel.searchWikipedia soNone ("xyzzy" ++ " medical condition OR human disease") =
        Except.ok none)) :=
  ⟨(claim2_vercel_fallback_once soFever eoFever "fever" "Fever").1 (by decide),
   (claim2_vercel_fallback_once soNone eoNone "xyzzy" "t").2 (by decide)⟩

-- ## Claim C3 — search failure reporting

/-- Counterexample for C3 as stated: in the Netlify variant a thrown search
error is caught inside `searchWikipedia` and becomes `null`, so the request
ends in the not-found disclaimer with status 200 — byte-for-byte the same
response as a genuinely empty search — instead of a `SearchFailed`/
`REMOTE_ERROR` condition. -/
theorem claim3_search_failure_counterexample :
    Netlify.handler soFail eoNone "POST" (Except.ok (some "migraine")) =
      (⟨200, Netlify.Body.text (Netlify.notFoundMessage "migraine")⟩,
       [RemoteCall.search "migraine"]) ∧
    Netlify.handler soFail eoNone "POST" (Except.ok (some "migraine")) =
      Netlify.handler soNone eoNone "POST" (Except.ok (some "migraine")) := by
  refine ⟨by decide, by decide⟩

/-- Claim C3 (amended): in the Vercel variant a network/parse failure at either
search step terminates the request in the `Search failed due to network
issue.` error outcome (reported to the caller with the error field), and is
never reported as the `No matching Wikipedia article found.` outcome; in the
Netlify variant a search failure is absorbed into the not-found outcome (see
the counterexample). -/
theorem claim3_vercel_search_failure (so : SearchOracle) (eo : ExtractOracle)
    (topic : String) (e : JsError) :
    (so topic = Except.error e →
      (Vercel.fetchWikipediaSummary so eo topic).1 =
          Except.ok (Vercel.FetchResult.err "Search failed due to network issue.") ∧
        (topic ≠ "" →
          (Vercel.handler so eo "POST" (some topic)).1 =
            ⟨200, Vercel.Body.errorField "Search failed due to network issue."⟩)) ∧
    (Vercel.searchWikipedia so topic = Except.ok none →
      so (topic ++ " medical condition OR human disease") = Except.error e →
      (Vercel.fetchWikipediaSummary so eo topic).1 =
        Except.ok (Vercel.FetchResult.err "Search failed due to network issue.")) ∧
    ("Search failed due to network issue." ≠ "No matching Wikipedia article found.") := by
  refine ⟨?_, ?_, by decide⟩
  · intro h
    have h1 : (Vercel.fetchWikipediaSummary so eo topic).1 =
        Except.ok (Vercel.FetchResult.err "Search failed due to network issue.") := by
      simp [Vercel.fetchWikipediaSummary, Vercel.searchWikipedia, h]
    refine ⟨h1, ?_⟩
    intro hp
    rcases hf : Vercel.fetchWikipediaSummary so eo topic with ⟨res, calls⟩
    rw [hf] at h1
    simp only at h1
    subst h1
    simp [Vercel.handler, hp, hf]
  · intro h h2
    simp only [Vercel.fetchWikipediaSummary, h]
    simp [Vercel.searchWikipedia, h2]

/-- Witness for C3 (amended): with a search backend that always throws, the
Vercel variant reports the search-failure error outcome with status 200. -/
theorem claim3_vercel_search_failure_witness :
    (Vercel.fetchWikipediaSummary soFail eoNone "migraine").1 =
        Except.ok (Vercel.FetchResult.err "Search failed due to network issue.") ∧
      ("migraine" ≠ "" →
        (Vercel.handler soFail eoNone "POST" (some "migraine")).1 =
          ⟨200, Vercel.Body.errorField "Search failed due to network issue."⟩) :=
  (claim3_vercel_search_failure soFail eoNone "migraine" ⟨"fetch failed"⟩).1 (by decide)

-- ## Claim C4 — not-found is a 200 success with explanatory text

/-- Claim C4: whenever every search attempt yields no matching article title —
including, in the Netlify variant, a title equal case-insensitively to
`wikipedia` — the response has HTTP status 200 and carries an explanatory
disclaimer text; the not-found outcome is never reported with an error status
code. -/
theorem claim4_notfound_is_200 (so : SearchOracle) (eo : ExtractOracle)
    (prompt : String) :
    (prompt ≠ "" → isGreeting prompt = false →
      isLikelyNonMedical (cleanMedicalPrompt prompt) = false →
      (Netlify.searchWikipedia so (cleanMedicalPrompt prompt) = none ∨
        (∃ w, Netlify.searchWikipedia so (cleanMedicalPrompt prompt) = some w ∧
          lowerStr w = "wikipedia")) →
      Netlify.handler so eo "POST" (Except.ok (some prompt)) =
        (⟨200, Netlify.Body.text (Netlify.notFoundMessage prompt)⟩,
         [RemoteCall.search (cleanMedicalPrompt prompt)])) ∧
    (prompt ≠ "" →
      Vercel.searchWikipedia so prompt = Except.ok none →
      Vercel.searchWikipedia so (prompt ++ " medical condition OR human disease") =
        Except.ok none →
      (Vercel.handler so eo "POST" (some prompt)).1 =
        ⟨200, Vercel.Body.errorField "No matching Wikipedia article found."⟩) := by
  constructor
  · intro hp hg hm hs
    simp only [Netlify.handler]
    rcases hs with hs | ⟨w, hw1, hw2⟩
    · simp [hp, hg, hm, hs]
    · simp [hp, hg, hm, hw1, hw2]
  · intro hp h1 h2
    simp [Vercel.handler, hp, Vercel.fetchWikipediaSummary, h1, h2]

/-- Witness for C4: in the Netlify variant a search hit on the root page
`Wikipedia` is reported as a 200 not-found disclaimer, and in the Vercel
variant two empty searches yield a 200 response with the explanatory error
text. -/
theorem claim4_notfound_is_200_witness :
    Netlify.handler soWiki eoNone "POST" (Except.ok (some "Chickenpox")) =
      (⟨200, Netlify.Body.text (Netlify.notFoundMessage "Chickenpox")⟩,
       [RemoteCall.search (cleanMedicalPrompt "Chickenpox")]) ∧
    (Vercel.handler soNone eoNone "POST" (some "xyzzyq")).1 =
      ⟨200, Vercel.Body.errorField "No matching Wikipedia article found."⟩ :=
  ⟨(claim4_notfound_is_200 soWiki eoNone "Chickenpox").1 (by decide) (by decide)
      (by decide) (Or.inr ⟨"Wikipedia", by decide, by decide⟩),
   (claim4_notfound_is_200 soNone eoNone "xyzzyq").2 (by decide) (by decide) (by decide)⟩

-- ## Claim C7 — disambiguation notice

set_option maxRecDepth 8192 in
/-- Counterexample for C7 as stated: in the Netlify variant the selected first
paragraph `Fever may refer to:` contains the disambiguation marker, yet the
returned summary embeds that raw disambiguation text and contains no
disambiguation notice at all. -/
theorem claim7_disambiguation_counterexample :
    hasSubstring (((splitOnNl "Fever may refer to:\nFever (symptom)\nOther uses").filter
        Netlify.segNonEmpty).headD "") "may refer to:" = true ∧
    Netlify.fetchWikipediaSummary eoDisambig "Fever" =
      some (Netlify.htmlContent "Fever" "Fever may refer to:") ∧
    hasSubstring (Netlify.htmlContent "Fever" "Fever may refer to:") "may refer to:" = true ∧
    hasSubstring (Netlify.htmlContent "Fever" "Fever may refer to:")
      "The topic is ambiguous" = false := by
  refine ⟨by decide, by decide, by decide, by decide⟩

/-- Claim C7 (amended): in the Vercel variant, a successfully fetched
non-empty extract whose first newline-delimited segment contains the marker
`may refer to:` yields the fixed disambiguation notice as summary, never the
raw disambiguation text; the Netlify variant performs no disambiguation check
(see the counterexample). -/
theorem claim7_vercel_disambiguation (eo : ExtractOracle) (title extract : String)
    (he : eo title = ExtractOutcome.ok (some extract)) (hne : extract ≠ "")
    (hm : hasSubstring ((splitOnNl extract).headD "") "may refer to:" = true) :
    Vercel.summarizePart eo title =
      Except.ok (Vercel.FetchResult.success title Vercel.disambigNotice
        (Vercel.sourceUrl title)) := by
  simp only [Vercel.summarizePart, he]
  rw [if_neg hne]
  simp only [hm]
  simp

/-- Witness for C7 (amended): a disambiguation-page extract is replaced by the
fixed notice. -/
theorem claim7_vercel_disambiguation_witness :
    Vercel.summarizePart eoDisambig "Fever" =
      Except.ok (Vercel.FetchResult.success "Fever" Vercel.disambigNotice
        (Vercel.sourceUrl "Fever")) :=
  claim7_vercel_disambiguation eoDisambig "Fever"
    "Fever may refer to:\nFever (symptom)\nOther uses" (by decide) (by decide) (by decide)

-- ## Claim C10 — all-whitespace extract in the Netlify variant

/-- Counterexample for C10 as stated: with a non-empty all-whitespace extract
the undefined dereference does occur (`fetchSummaryTryBody` throws a
`TypeError`), but that throw is caught by `fetchWikipediaSummary`'s own
`catch`, which returns `null` — so the request ends in the 200
`could not extract a summary` response, not in the 500 catch-all. -/
theorem claim10_whitespace_extract_counterexample :
    Netlify.fetchSummaryTryBody eoWs "Paracetamol" = Except.error jsTypeError ∧
    (Netlify.handler soPara eoWs "POST" (Except.ok (some "paracetamol"))).1 =
      ⟨200, Netlify.Body.text (Netlify.couldNotExtractMessage "Paracetamol")⟩ ∧
    (Netlify.handler soPara eoWs "POST" (Except.ok (some "paracetamol"))).1.statusCode ≠ 500 := by
  refine ⟨by decide, by decide, by decide⟩

/-- Claim C10 (amended): in the Netlify variant, for every fetched extract
that is non-empty but whose newline-delimited segments are all whitespace, the
first-non-empty-paragraph selection yields no segment and the subsequent
string operation dereferences `undefined` (modelled as the thrown
`TypeError` of `fetchSummaryTryBody`); the throw is caught inside
`fetchWikipediaSummary`, which returns `null`, and the request terminates in
the 200 `could not extract a summary` response rather than the 500 catch-all. -/
theorem claim10_whitespace_extract (so : SearchOracle) (eo : ExtractOracle)
    (prompt title extract : String)
    (hp : prompt ≠ "") (hg : isGreeting prompt = false)
    (hm : isLikelyNonMedical (cleanMedicalPrompt prompt) = false)
    (hs : Netlify.searchWikipedia so (cleanMedicalPrompt prompt) = some title)
    (hw : lowerStr title ≠ "wikipedia")
    (he : eo title = ExtractOutcome.ok (some extract)) (hne : extract ≠ "")
    (hall : (splitOnNl extract).filter Netlify.segNonEmpty = []) :
    Netlify.fetchSummaryTryBody eo title = Except.error jsTypeError ∧
    Netlify.fetchWikipediaSummary eo title = none ∧
    Netlify.handler so eo "POST" (Except.ok (some prompt)) =
      (⟨200, Netlify.Body.text (Netlify.couldNotExtractMessage title)⟩,
       [RemoteCall.search (cleanMedicalPrompt prompt), RemoteCall.extract title]) := by
  have hb : Netlify.fetchSummaryTryBody eo title = Except.error jsTypeError := by
    simp only [Netlify.fetchSummaryTryBody, he]
    rw [if_neg hne, hall]
    rfl
  have hf : Netlify.fetchWikipediaSummary eo title = none := by
    unfold Netlify.fetchWikipediaSummary
    rw [hb]
  refine ⟨hb, hf, ?_⟩
  simp only [Netlify.handler]
  simp [hp, hg, hm, hs, hw, hf]

/-- Witness for C10 (amended): the concrete extract `" \n \t "` exercises the
whole path. -/
theorem claim10_whitespace_extract_witness :
    Netlify.fetchSummaryTryBody eoWs "Paracetamol" = Except.error jsTypeError ∧
    Netlify.fetchWikipediaSummary eoWs "Paracetamol" = none ∧
    Netlify.handler soPara eoWs "POST" (Except.ok (some "Advil")) =
      (⟨200, Netlify.Body.text (Netlify.couldNotExtractMessage "Paracetamol")⟩,
       [RemoteCall.search (cleanMedicalPrompt "Advil"), RemoteCall.extract "Paracetamol"]) :=
  claim10_whitespace_extract soPara eoWs "Advil" "Paracetamol" " \n \t "
    (by decide) (by decide) (by decide) (by decide) (by decide) (by decide)
    (by decide) (by decide)

-- ## Claim C9 — Groq credential

/-- Claim C9: the Vercel Groq variant sends exactly the secret read from the
process environment as bearer token, but the Netlify Groq variant sends a
hard-coded `gsk_...` literal regardless of the environment — contradicting
both the claim and the variant's own comment that the key comes from the
environment variable. -/
theorem claim9_groq_bearer_token :
    GroqVercel.authorizationHeader env0 = "Bearer ENV-SECRET-TOKEN" ∧
    GroqNetlify.authorizationHeader =
      "Bearer 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" ∧
    GroqNetlify.authorizationHeader ≠ "Bearer ENV-SECRET-TOKEN" := by
  refine ⟨by decide, by decide, by decide⟩

-- ## Claim C8 — result-shape invariant

theorem successMessage_data (h : String) :
    (Netlify.successMessage h).data =
      ("Disclaimer: I am a fact-finding assistant, not a doctor. " : String).data ++ h.data :=
  strData_append _ _

theorem successMessage_getElem0 (h : String) :
    (Netlify.successMessage h).data[0]? = some 'D' := by
  rw [successMessage_data, List.getElem?_append_left (by decide)]
  decide

theorem successMessage_getElem41 (h : String) :
    (Netlify.successMessage h).data[41]? = some ',' := by
  rw [successMessage_data, List.getElem?_append_left (by decide)]
  decide

theorem notFoundMessage_getElem41 (p : String) :
    (Netlify.notFoundMessage p).data[41]? = some '.' := by
  have hd : (Netlify.notFoundMessage p).data =
      (("Disclaimer: I am a fact-finding assistant. I could not find a relevant Wikipedia article for **\"" : String).data ++
        p.data) ++
        ("\"**. Please try a more specific health term." : String).data := by
    rw [show Netlify.notFoundMessage p =
        ("Disclaimer: I am a fact-finding assistant. I could not find a relevant Wikipedia article for **\"" ++
          p) ++ "\"**. Please try a more specific health term." from rfl]
    rw [strData_append, strData_append]
  rw [hd]
  have h1 : (41:Nat) <
      (("Disclaimer: I am a fact-finding assistant. I could not find a relevant Wikipedia article for **\"" : String).data ++
        p.data).length := by
    rw [List.length_append]
    have h0 : (41:Nat) <
        ("Disclaimer: I am a fact-finding assistant. I could not find a relevant Wikipedia article for **\"" : String).data.length := by
      decide
    omega
  rw [List.getElem?_append_left h1, List.getElem?_append_left (by decide)]
  decide

theorem couldNotExtractMessage_getElem41 (t : String) :
    (Netlify.couldNotExtractMessage t).data[41]? = some '.' := by
  have hd : (Netlify.couldNotExtractMessage t).data =
      (("Disclaimer: I am a fact-finding assistant. Found article \"" : String).data ++
        t.data) ++
        ("\" but could not extract a summary." : String).data := by
    rw [show Netlify.couldNotExtractMessage t =
        ("Disclaimer: I am a fact-finding assistant. Found article \"" ++ t) ++
          "\" but could not extract a summary." from rfl]
    rw [strData_append, strData_append]
  rw [hd]
  have h1 : (41:Nat) <
      (("Disclaimer: I am a fact-finding assistant. Found article \"" : String).data ++
        t.data).length := by
    rw [List.length_append]
    have h0 : (41:Nat) <
        ("Disclaimer: I am a fact-finding assistant. Found article \"" : String).data.length := by
      decide
    omega
  rw [List.getElem?_append_left h1, List.getElem?_append_left (by decide)]
  decide

theorem outOfScopeMessage_getElem0 (c : String) :
    (Netlify.outOfScopeMessage c).data[0]? = some 'I' := by
  have hd : (Netlify.outOfScopeMessage c).data =
      (("I apologize, but my function is strictly limited to **health and medical topics**. I cannot search for information about \"" : String).data ++
        c.data) ++
        ("\". Please try a health-related question instead." : String).data := by
    rw [show Netlify.outOfScopeMessage c =
        ("I apologize, but my function is strictly limited to **health and medical topics**. I cannot search for information about \"" ++
          c) ++ "\". Please try a health-related question instead." from rfl]
    rw [strData_append, strData_append]
  rw [hd]
  have h1 : (0:Nat) <
      (("I apologize, but my function is strictly limited to **health and medical topics**. I cannot search for information about \"" : String).data ++
        c.data).length := by
    rw [List.length_append]
    have h0 : (0:Nat) <
        ("I apologize, but my function is strictly limited to **health and medical topics**. I cannot search for information about \"" : String).data.length := by
      decide
    omega
  rw [List.getElem?_append_left h1, List.getElem?_append_left (by decide)]
  decide

theorem greeting_ne_successMessage (h : String) :
    Netlify.greetingMessage ≠ Netlify.successMessage h :=
  ne_of_data_getElem 0 (by rw [successMessage_getElem0]; decide)

theorem outOfScope_ne_successMessage (c h : String) :
    Netlify.outOfScopeMessage c ≠ Netlify.successMessage h :=
  ne_of_data_getElem 0 (by rw [outOfScopeMessage_getElem0, successMessage_getElem0]; decide)

theorem notFound_ne_successMessage (p h : String) :
    Netlify.notFoundMessage p ≠ Netlify.successMessage h :=
  ne_of_data_getElem 41 (by rw [notFoundMessage_getElem41, successMessage_getElem41]; decide)

theorem couldNotExtract_ne_successMessage (t h : String) :
    Netlify.couldNotExtractMessage t ≠ Netlify.successMessage h :=
  ne_of_data_getElem 41 (by rw [couldNotExtractMessage_getElem41, successMessage_getElem41]; decide)

/-- Inversion: a non-`null` Netlify summary requires a present, non-empty
extract. -/
theorem netlify_fetch_some_inv (eo : ExtractOracle) (title html : String)
    (h : Netlify.fetchWikipediaSummary eo title = some html) :
    ∃ e, eo title = ExtractOutcome.ok (some e) ∧ e ≠ "" := by
  rcases hb : Netlify.fetchSummaryTryBody eo title with err | r
  · rw [Netlify.fetchWikipediaSummary, hb] at h
    cases h
  · simp only [Netlify.fetchWikipediaSummary, hb] at h
    subst h
    simp only [Netlify.fetchSummaryTryBody] at hb
    rcases heo : eo title with _ | _ | ex
    · simp [heo] at hb
    · simp [heo] at hb
    · rcases ex with _ | extract
      · simp [heo] at hb
      · by_cases hx : extract = ""
        · simp [heo, hx] at hb
        · exact ⟨extract, rfl, hx⟩

/-- Inversion: a Vercel success result requires the resolved title and a
present, non-empty extract. -/
theorem vercel_summarize_success_inv (eo : ExtractOracle) (title t s u : String)
    (h : Vercel.summarizePart eo title = Except.ok (Vercel.FetchResult.success t s u)) :
    t = title ∧ ∃ e, eo title = ExtractOutcome.ok (some e) ∧ e ≠ "" := by
  simp only [Vercel.summarizePart] at h
  rcases heo : eo title with _ | _ | ex
  · simp [heo] at h
  · simp [heo] at h
  · rcases ex with _ | extract
    · simp [heo] at h
    · by_cases hx : extract = ""
      · simp [heo, hx] at h
      · simp only [heo] at h
        rw [if_neg hx] at h
        simp only [Except.ok.injEq, Vercel.FetchResult.success.injEq] at h
        exact ⟨h.1.symm, extract, rfl, hx⟩

theorem vercel_fetch_success_inv (so : SearchOracle) (eo : ExtractOracle)
    (topic t s u : String)
    (h : (Vercel.fetchWikipediaSummary so eo topic).1 =
      Except.ok (Vercel.FetchResult.success t s u)) :
    vercelResolvedTitle so topic = some t ∧
      ∃ e, eo t = ExtractOutcome.ok (some e) ∧ e ≠ "" := by
  rcases h1 : Vercel.searchWikipedia so topic with e1 | v1
  · simp [Vercel.fetchWikipediaSummary, h1] at h
  · cases v1 with
    | some title =>
        simp only [Vercel.fetchWikipediaSummary, h1] at h
        obtain ⟨ht, e, he, hne⟩ := vercel_summarize_success_inv eo title t s u h
        subst ht
        exact ⟨by simp [vercelResolvedTitle, h1], e, he, hne⟩
    | none =>
        rcases h2 : Vercel.searchWikipedia so
            (topic ++ " medical condition OR human disease") with e2 | v2
        · simp [Vercel.fetchWikipediaSummary, h1, h2] at h
        · cases v2 with
          | none => simp [Vercel.fetchWikipediaSummary, h1, h2] at h
          | some title =>
              simp only [Vercel.fetchWikipediaSummary, h1, h2] at h
              obtain ⟨ht, e, he, hne⟩ := vercel_summarize_success_inv eo title t s u h
              subst ht
              exact ⟨by simp [vercelResolvedTitle, h1, h2], e, he, hne⟩

/-- Claim C8: a response is success-shaped — the Vercel structured
`{title, summary, sourceUrl}` body, or the Netlify rendered equivalent (the
disclaimer-plus-HTML text) — only when both an article title was resolved and
a non-empty extract was obtained; a thrown exception inside the pipeline is
converted by the catch-all into a textual 500 response, so no request
surfaces a raw exception. -/
theorem claim8_result_invariant (so : SearchOracle) (eo : ExtractOracle)
    (prompt : String) :
    (∀ t s u, (Vercel.handler so eo "POST" (some prompt)).1 =
        ⟨200, Vercel.Body.result t s u⟩ →
      vercelResolvedTitle so prompt = some t ∧
        ∃ e, eo t = ExtractOutcome.ok (some e) ∧ e ≠ "") ∧
    (∀ h, (Netlify.handler so eo "POST" (Except.ok (some prompt))).1.body =
        Netlify.Body.text (Netlify.successMessage h) →
      ∃ t e, netlifyResolvedTitle so (cleanMedicalPrompt prompt) = some t ∧
        eo t = ExtractOutcome.ok (some e) ∧ e ≠ "") ∧
    (prompt ≠ "" → ∀ err : JsError,
      (Vercel.fetchWikipediaSummary so eo prompt).1 = Except.error err →
      (Vercel.handler so eo "POST" (some prompt)).1 =
        ⟨500, Vercel.Body.message "Internal server error processing Wikipedia request."⟩) ∧
    (∀ e : JsError, (Netlify.handler so eo "POST" (Except.error e)).1 =
      ⟨500, Netlify.Body.internalErr "Internal Server Error during Wikipedia search."
        e.message⟩) := by
  refine ⟨?_, ?_, ?_, ?_⟩
  · intro t s u h
    by_cases hp : prompt = ""
    · simp [Vercel.handler, hp] at h
    · rcases hf : Vercel.fetchWikipediaSummary so eo prompt with ⟨res, calls⟩
      rcases res with e | fr
      · simp [Vercel.handler, hp, hf] at h
      · rcases fr with m | ⟨t', s', u'⟩
        · simp [Vercel.handler, hp, hf] at h
        · simp only [Vercel.handler, hp, hf] at h
          simp [Vercel.Body.result.injEq] at h
          obtain ⟨ht, hs, hu⟩ := h
          subst ht
          exact vercel_fetch_success_inv so eo prompt t' s' u' (by rw [hf])
  · intro h hx
    by_cases hp : prompt = ""
    · simp [Netlify.handler, hp] at hx
    · by_cases hg : isGreeting prompt
      · simp [Netlify.handler, hp, hg] at hx
        exact absurd hx (greeting_ne_successMessage h)
      · by_cases hm : isLikelyNonMedical (cleanMedicalPrompt prompt)
        · simp [Netlify.handler, hp, hg, hm] at hx
          exact absurd hx (outOfScope_ne_successMessage _ h)
        · rcases hsr : Netlify.searchWikipedia so (cleanMedicalPrompt prompt) with _ | title
          · simp [Netlify.handler, hp, hg, hm, hsr] at hx
            exact absurd hx (notFound_ne_successMessage _ h)
          · by_cases hw : lowerStr title = "wikipedia"
            · simp [Netlify.handler, hp, hg, hm, hsr, hw] at hx
              exact absurd hx (notFound_ne_successMessage _ h)
            · rcases hfv : Netlify.fetchWikipediaSummary eo title with _ | html
              · simp [Netlify.handler, hp, hg, hm, hsr, hw, hfv] at hx
                exact absurd hx (couldNotExtract_ne_successMessage _ h)
              · obtain ⟨e, he, hne⟩ := netlify_fetch_some_inv eo title html hfv
                exact ⟨title, e, by simp [netlifyResolvedTitle, hsr, hw], he, hne⟩
  · intro hp err herr
    rcases hf : Vercel.fetchWikipediaSummary so eo prompt with ⟨res, calls⟩
    rw [hf] at herr
    simp only at herr
    subst herr
    simp [Vercel.handler, hp, hf]
  · intro e
    simp [Netlify.handler]

/-- Witness for C8: a backend resolving `Fever` with a real extract yields the
success shapes in both variants with the extract obtained; a malformed
extract payload in the Vercel variant is converted to the textual 500
response; a thrown body parse in the Netlify variant is converted to the
textual 500 response. -/
theorem claim8_result_invariant_witness :
    (vercelResolvedTitle soFever "fever" = some "Fever" ∧
      ∃ e, eoFever "Fever" = ExtractOutcome.ok (some e) ∧ e ≠ "") ∧
    (∃ t e, netlifyResolvedTitle soFever (cleanMedicalPrompt "fever") = some t ∧
      eoFever t = ExtractOutcome.ok (some e) ∧ e ≠ "") ∧
    ((Vercel.handler soFever eoBad "POST" (some "fever")).1 =
      ⟨500, Vercel.Body.message "Internal server error processing Wikipedia request."⟩) ∧
    ((Netlify.handler soNone eoNone "POST" (Except.error ⟨"Unexpected token"⟩)).1 =
      ⟨500, Netlify.Body.internalErr "Internal Server Error during Wikipedia search."
        "Unexpected token"⟩) :=
  ⟨(claim8_result_invariant soFever eoFever "fever").1 "Fever"
      "Fever is a medical symptom." (Vercel.sourceUrl "Fever") (by decide),
   (claim8_result_invariant soFever eoFever "fever").2.1
      (Netlify.htmlContent "Fever" "Fever is a medical symptom.") (by decide),
   (claim8_result_invariant soFever eoBad "fever").2.2.1 (by decide) jsTypeError (by decide),
   (claim8_result_invariant soNone eoNone "irrelevant").2.2.2 ⟨"Unexpected token"⟩⟩
